import Mathlib

/-
Shallow embedding of the SherlockStatistics statistics module
(src/statistics_api/models.py, serializer.py, views.py), covering the
data model (Feature, UserInteraction, UserFeedback), the Django cache
(key-value store with TTL and prefix-pattern deletion), and the five
view operations the claims are about.  Machine time is modelled as a
natural number of seconds; the hourly cache-key bucket
strftime("%Y%m%d%H") is modelled as the hour number now / 3600, which
agrees on two timestamps exactly when they fall in the same clock hour.
-/

namespace SherlockStats

/-- Enumeration of interaction kinds, from the `choices` list of
`UserInteraction.interaction_type` (models.py) and of the serializer
`ChoiceField` (serializer.py): click, hover, focus, scroll. -/
inductive InteractionType where
  | click
  | hover
  | focus
  | scroll
deriving DecidableEq, Repr

/-- Wire value of each interaction kind (the first component of each
`choices` pair). -/
def InteractionType.toWire : InteractionType → String
  | .click => "click"
  | .hover => "hover"
  | .focus => "focus"
  | .scroll => "scroll"

/-- Field validation of the serializer `ChoiceField`: a wire string is
accepted exactly when it is one of the four fixed choices. -/
def parseInteractionType : String → Option InteractionType
  | "click" => some InteractionType.click
  | "hover" => some InteractionType.hover
  | "focus" => some InteractionType.focus
  | "scroll" => some InteractionType.scroll
  | _ => none

/-- Row of the Feature table (models.py `Feature`): name is unique. -/
structure Feature where
  name : String
  description : String
  category : String
deriving DecidableEq, Repr

/-- Relevant fields of the User row together with the two facts the
request layer exposes about the caller: `is_staff` (checked by the
IsAdminUser permission class) and `is_authenticated` (checked by the
IsAuthenticated permission class and by the serializer validate). -/
structure User where
  id : Nat
  username : String
  is_staff : Bool
  is_authenticated : Bool
deriving DecidableEq, Repr

/-- Row of the UserInteraction table (models.py `UserInteraction`).
The User and Feature foreign keys are held as the user id and the
unique feature name; additional_metadata is an opaque optional JSON
blob, modelled as an optional string. -/
structure Interaction where
  user_id : Nat
  feature_name : String
  interaction_type : InteractionType
  timestamp : Nat
  duration : Int
  additional_metadata : Option String
deriving DecidableEq, Repr

/-- Decimal input as the Python `decimal.Decimal` tuple that DRF
precision validation inspects: sign, coefficient, and the number of
fractional digits (`scale`, i.e. minus the exponent).  Decimal
literals arriving over the wire always have exponent ≤ 0, so a natural
scale suffices: "9.9" is ⟨false, 99, 1⟩, "10.0" is ⟨false, 100, 1⟩,
"5" is ⟨false, 5, 0⟩, "5.00" is ⟨false, 500, 2⟩. -/
structure DecimalInput where
  neg : Bool
  coeff : Nat
  scale : Nat
deriving DecidableEq, Repr

/-- Row of the UserFeedback table (models.py `UserFeedback`). -/
structure Feedback where
  user_id : Nat
  category : String
  rating : DecimalInput
  feedback_text : Option String
  timestamp : Nat
deriving DecidableEq, Repr

/-- State of the relational store: the four tables. -/
structure DB where
  users : List User
  features : List Feature
  interactions : List Interaction
  feedbacks : List Feedback
deriving DecidableEq, Repr

/-- Serialized interaction as produced by
`UserInteractionCreateSerializer(interactions, many=True).data`: the
declared fields minus the write-only `feature_name`. -/
structure SerializedInteraction where
  interaction_type : InteractionType
  duration : Int
  additional_metadata : Option String
deriving DecidableEq, Repr

/-- Per-feature row of the statistics response
(`feature_interaction_stats`); the float average duration is modelled
as the exact rational sum / count. -/
structure FeatureStat where
  feature_name : String
  interaction_count : Nat
  avg_duration : Rat
deriving DecidableEq, Repr

/-- Per-user row of the statistics response (`top_10_active_users`). -/
structure UserStat where
  username : String
  interaction_count : Nat
deriving DecidableEq, Repr

/-- Body of the statistics response dict built by
`UserInteractionStatisticsView.get`. -/
structure StatsData where
  total_interactions : Nat
  interactions_last_30_days : Nat
  interaction_type_breakdown : List (InteractionType × Nat)
  feature_interaction_stats : List FeatureStat
  top_10_active_users : List UserStat
deriving DecidableEq, Repr

/-- JSON values that travel in response bodies and cache entries. -/
inductive Val where
  | stats (s : StatsData)
  | ilist (l : List SerializedInteraction)
  | msg (m : String)
  | bulkErrors (es : List (Option String))
  | detail (m : String)
  | feedbackOut (category : String) (rating : DecimalInput) (text : Option String)
deriving DecidableEq, Repr

/-- Python truthiness of a cached value, as tested by the views'
`if cached_...:` lines: a list is falsy when empty; the statistics
dict always has five keys, hence is always truthy; strings are falsy
when empty. -/
def Val.truthy : Val → Bool
  | .stats _ => true
  | .ilist l => !l.isEmpty
  | .msg m => !m.isEmpty
  | .bulkErrors es => !es.isEmpty
  | .detail m => !m.isEmpty
  | .feedbackOut _ _ _ => true

/-- One cache entry: key, value, and absolute expiry time (set time
plus timeout). -/
structure CacheEntry where
  key : String
  val : Val
  expiry : Nat
deriving DecidableEq, Repr

/-- State of the Django cache backend, keys unordered; the entry list
is kept with at most one live entry per key by `Cache.set`. -/
structure Cache where
  entries : List CacheEntry
deriving DecidableEq, Repr

/-- Behaviour of `cache.get(key)` at time `now`: the stored value if
the key is present and not yet expired, otherwise none. -/
def Cache.get (c : Cache) (now : Nat) (k : String) : Option Val :=
  match c.entries.find? (fun e => e.key == k) with
  | some e => if now < e.expiry then some e.val else none
  | none => none

/-- Behaviour of `cache.set(key, value, timeout)` at time `now`:
replaces any entry under the key, expiring at `now + timeout`. -/
def Cache.set (c : Cache) (now : Nat) (k : String) (v : Val) (timeout : Nat) : Cache :=
  ⟨⟨k, v, now + timeout⟩ :: c.entries.filter (fun e => !(e.key == k))⟩

/-- Test of `startswith`: the first string's characters lead the
second string's. -/
def strStartsWith (pre s : String) : Bool :=
  pre.data.isPrefixOf s.data

/-- Prefix of a glob pattern such as `user_interaction_stats_*`: the
pattern with the trailing star removed. -/
def globPrefix (pat : String) : String :=
  if pat.data.getLast? = some (Char.ofNat 42) then ⟨pat.data.dropLast⟩ else pat

/-- Behaviour of `cache.delete_pattern(pat)` for a trailing-star glob:
deletes every entry whose key starts with the pattern's prefix. -/
def Cache.delete_pattern (c : Cache) (pat : String) : Cache :=
  ⟨c.entries.filter (fun e => !(strStartsWith (globPrefix pat) e.key))⟩

/-! Serializer: UserInteractionCreateSerializer (serializer.py lines 17-52). -/

/-- Raw wire item of a bulk-create payload: the declared serializer
fields interaction_type, feature_name, duration, additional_metadata. -/
structure RawItem where
  interaction_type : String
  feature_name : String
  duration : Int
  additional_metadata : Option String
deriving DecidableEq, Repr

/-- Attributes after successful validation. -/
structure ValidAttrs where
  ty : InteractionType
  feature_name : String
  duration : Int
  additional_metadata : Option String
deriving DecidableEq, Repr

/-- Outcome of running one item through the serializer, mirroring DRF
control flow.  `fieldError` is a ValidationError raised during field
validation (the ChoiceField); `raisedError` is one raised inside
`validate`; `returnedError` records that `validate` RETURNED a
`serializers.ValidationError(...)` object instead of raising it
(serializer.py line 37 reads `return serializers.ValidationError(...)`,
not `raise`), in which case DRF treats the exception object itself as
the validated data and `is_valid()` succeeds. -/
inductive ItemResult where
  | fieldError (m : String)
  | raisedError (m : String)
  | returnedError (m : String)
  | ok (a : ValidAttrs)
deriving DecidableEq, Repr

/-- DRF `is_valid()` verdict for one item: only a raised
ValidationError (from field validation or from `validate`) makes the
item invalid; a returned one does not. -/
def ItemResult.is_valid : ItemResult → Bool
  | .fieldError _ => false
  | .raisedError _ => false
  | .returnedError _ => true
  | .ok _ => true

/-- Per-item entry of `serializer.errors`: the error message for an
invalid item, none (the empty dict) for a valid one. -/
def ItemResult.errorReport : ItemResult → Option String
  | .fieldError m => some m
  | .raisedError m => some m
  | .returnedError _ => none
  | .ok _ => none

/-- Query `Feature.objects.filter(name=...).exists()`. -/
def featureExists (db : DB) (name : String) : Bool :=
  db.features.any (fun f => f.name == name)

/-- Validation of one item: field validation first (the ChoiceField on
interaction_type; CharField and IntegerField accept any string or
integer), then the serializer `validate` method, which checks
`user.is_authenticated` (returning, not raising, on failure — the
source bug) and then Feature existence (raising on failure). -/
def runItemValidation (db : DB) (user : User) (it : RawItem) : ItemResult :=
  match parseInteractionType it.interaction_type with
  | none => .fieldError "not a valid choice"
  | some ty =>
    if !user.is_authenticated then
      .returnedError "User is not authenticated"
    else if !featureExists db it.feature_name then
      .raisedError "Feature does not exist"
    else
      .ok ⟨ty, it.feature_name, it.duration, it.additional_metadata⟩

/-- Record produced by the serializer `create` for validated
attributes: the user reference always comes from the request context,
never from the payload, and the timestamp is server-assigned. -/
def mkInteraction (user : User) (now : Nat) (a : ValidAttrs) : Interaction :=
  ⟨user.id, a.feature_name, a.ty, now, a.duration, a.additional_metadata⟩

/-- What `ListSerializer.save` persists for one validation outcome:
a record for an `ok` item, nothing otherwise (in the bulk endpoint the
authentication guard means every outcome reaching save is `ok`). -/
def ItemResult.toRecord (user : User) (now : Nat) : ItemResult → Option Interaction
  | .ok a => some (mkInteraction user now a)
  | _ => none

/-! Statistics aggregation: UserInteractionStatisticsView (views.py
lines 17-130). -/

/-- Cache key from views.py line 88:
`user_interaction_stats_` followed by the current hour bucket
(strftime "%Y%m%d%H", modelled as now / 3600). -/
def interactionStatsKey (now : Nat) : String :=
  "user_interaction_stats_" ++ toString (now / 3600)

/-- Number of decimal digits of a natural number: the length of its
base-ten digit string (one for zero). -/
def numDigits (n : Nat) : Nat :=
  (Nat.toDigits 10 n).length

/-- Elements of a list not yet seen, in order of first occurrence. -/
def dedupAcc {α : Type} [DecidableEq α] (seen : List α) : List α → List α
  | [] => []
  | a :: t => if a ∈ seen then dedupAcc seen t else a :: dedupAcc (a :: seen) t

/-- First occurrences of a list, in order, duplicates dropped; used to
model the distinct keys of a SQL GROUP BY. -/
def firstOccurrences {α : Type} [DecidableEq α] (l : List α) : List α :=
  dedupAcc [] l

/-- Stable insertion of an element into a list sorted descending by a
natural key; equal keys keep earlier elements first. -/
def insertDescBy {α : Type} (key : α → Nat) (a : α) : List α → List α
  | [] => [a]
  | b :: t => if key b < key a then a :: b :: t else b :: insertDescBy key a t

/-- Stable descending sort by a natural key, modelling
`order_by('-interaction_count')`. -/
def sortDescBy {α : Type} (key : α → Nat) : List α → List α
  | [] => []
  | a :: t => insertDescBy key a (sortDescBy key t)

/-- Username of an interaction's user (the `user__username` join);
interactions always reference an existing user (foreign-key
integrity), the empty string covers the unreachable dangling case. -/
def lookupUsername (db : DB) (uid : Nat) : String :=
  match db.users.find? (fun u => u.id == uid) with
  | some u => u.username
  | none => ""

/-- Statistics computation of views.py lines 96-125: total count;
30-day window count; per-kind counts within the window (the kinds
present, in enumeration order — the GROUP BY emits only present
groups, in an order the query leaves unspecified); per-feature count
and average duration within the window ordered descending by count;
top ten users by count within the window. -/
def computeStats (db : DB) (now : Nat) : StatsData :=
  let cutoff := now - 30 * 86400
  let l30 := db.interactions.filter (fun i => cutoff ≤ i.timestamp)
  let kinds := [InteractionType.click, InteractionType.hover,
    InteractionType.focus, InteractionType.scroll]
  let breakdown := kinds.filterMap (fun ty =>
    let n := (l30.filter (fun i => i.interaction_type == ty)).length
    if n = 0 then none else some (ty, n))
  let fnames := firstOccurrences (l30.map (fun i => i.feature_name))
  let fstats := sortDescBy (fun s => s.interaction_count)
    (fnames.map (fun nm =>
      let grp := l30.filter (fun i => i.feature_name == nm)
      { feature_name := nm
        interaction_count := grp.length
        avg_duration := ((grp.map (fun i => i.duration)).sum : Rat) / (grp.length : Rat) }))
  let unames := firstOccurrences (l30.map (fun i => lookupUsername db i.user_id))
  let ustats := (sortDescBy (fun s => s.interaction_count)
    (unames.map (fun nm =>
      { username := nm
        interaction_count :=
          (l30.filter (fun i => lookupUsername db i.user_id == nm)).length }))).take 10
  { total_interactions := db.interactions.length
    interactions_last_30_days := l30.length
    interaction_type_breakdown := breakdown
    feature_interaction_stats := fstats
    top_10_active_users := ustats }

/-- Result of a read-only view: HTTP status, body, the cache after the
call, and whether the body was served from the cache. -/
structure ReadResult where
  status : Nat
  body : Val
  cache : Cache
  fromCache : Bool
deriving DecidableEq, Repr

/-- GET handler of UserInteractionStatisticsView (views.py lines
69-130): IsAdminUser permission, hourly cache key, truthiness-guarded
cache hit, otherwise compute, cache for 3600 seconds, respond. -/
def userInteractionStatisticsView_get (db : DB) (c : Cache) (now : Nat)
    (caller : User) : ReadResult :=
  if !caller.is_staff then
    ⟨403, .detail "forbidden", c, false⟩
  else
    let key := interactionStatsKey now
    match c.get now key with
    | some v =>
      if v.truthy then ⟨200, v, c, true⟩
      else
        let s := computeStats db now
        ⟨200, .stats s, c.set now key (.stats s) 3600, false⟩
    | none =>
      let s := computeStats db now
      ⟨200, .stats s, c.set now key (.stats s) 3600, false⟩

/-! Bulk create: BulkCreateUserInteractionView (views.py lines 133-201). -/

/-- Result of a state-changing endpoint: HTTP status, body, and the
store and cache after the call. -/
structure EndpointResult where
  status : Nat
  body : Val
  db : DB
  cache : Cache
deriving DecidableEq, Repr

/-- POST handler of BulkCreateUserInteractionView (views.py lines
166-201): IsAuthenticated permission; validate every item with the
serializer (many=True, the empty list being valid); if all items are
valid, save them all (each record bound to the caller with a
server-assigned timestamp), purge every cache key under the
`user_interaction_stats_` prefix, and answer 201 with the message
built from `len(serializer.validated_data)` (one entry per input
item); otherwise answer 400 with the per-item error list and change
nothing. -/
def bulkCreateUserInteractionView_post (db : DB) (c : Cache) (now : Nat)
    (caller : User) (items : List RawItem) : EndpointResult :=
  if !caller.is_authenticated then
    ⟨401, .detail "Authentication credentials were not provided.", db, c⟩
  else
    let results := items.map (runItemValidation db caller)
    if results.all ItemResult.is_valid then
      let created := results.filterMap (ItemResult.toRecord caller now)
      ⟨201,
        .msg (toString items.length ++ " interactions created successfully"),
        { db with interactions := db.interactions ++ created },
        c.delete_pattern "user_interaction_stats_*"⟩
    else
      ⟨400, .bulkErrors (results.map ItemResult.errorReport), db, c⟩

/-! Per-user interaction listing: UserInteractionByUser (views.py
lines 204-280). -/

/-- Rendering of an optional string query parameter into the cache
key. -/
def optStr : Option String → String
  | none => "-"
  | some s => "+" ++ s

/-- Rendering of an optional numeric query parameter into the cache
key. -/
def optNat : Option Nat → String
  | none => "-"
  | some n => "+" ++ toString n

/-- Cache key of views.py line 239,
`user_interactions_{user_id}_{hash(frozenset(query_params.items()))}`:
the parameter-set hash is modelled by a deterministic rendering of the
parameters, which like the source gives equal keys to equal
(user id, filter-set) pairs. -/
def userInteractionsKey (user_id : Nat) (qtype : Option String)
    (qstart qend : Option Nat) : String :=
  "user_interactions_" ++ toString user_id ++ "_" ++
    optStr qtype ++ "_" ++ optNat qstart ++ "_" ++ optNat qend

/-- Query of views.py lines 248-266: interactions of the user (a
filter on the user id — no existence check of the user occurs, and
nothing in the block can raise `User.DoesNotExist`, so that except
branch is dead), optionally narrowed by kind (skipped for an empty
string parameter, per Python truthiness) and by inclusive timestamp
bounds, then serialized.  Timestamps and date parameters are modelled
uniformly as seconds. -/
def userInteractionsQuery (db : DB) (user_id : Nat) (qtype : Option String)
    (qstart qend : Option Nat) : List SerializedInteraction :=
  let l1 := db.interactions.filter (fun i => i.user_id == user_id)
  let l2 : List Interaction := match qtype with
    | some t => if t.isEmpty then l1
        else l1.filter (fun i => i.interaction_type.toWire == t)
    | none => l1
  let l3 : List Interaction := match qstart with
    | some s => l2.filter (fun i => s ≤ i.timestamp)
    | none => l2
  let l4 : List Interaction := match qend with
    | some e => l3.filter (fun i => i.timestamp ≤ e)
    | none => l3
  l4.map (fun i => ⟨i.interaction_type, i.duration, i.additional_metadata⟩)

/-- GET handler of UserInteractionByUser (views.py lines 223-280):
IsAdminUser permission, per-(user, filter-set) cache key,
truthiness-guarded cache hit, otherwise run the query, cache the
serialized list for 1800 seconds, respond 200.  An unknown user id
flows through the same path and yields 200 with the empty list. -/
def userInteractionByUser_get (db : DB) (c : Cache) (now : Nat) (caller : User)
    (user_id : Nat) (qtype : Option String) (qstart qend : Option Nat) : ReadResult :=
  if !caller.is_staff then
    ⟨403, .detail "forbidden", c, false⟩
  else
    let key := userInteractionsKey user_id qtype qstart qend
    match c.get now key with
    | some v =>
      if v.truthy then ⟨200, v, c, true⟩
      else
        let ser := userInteractionsQuery db user_id qtype qstart qend
        ⟨200, .ilist ser, c.set now key (.ilist ser) 1800, false⟩
    | none =>
      let ser := userInteractionsQuery db user_id qtype qstart qend
      ⟨200, .ilist ser, c.set now key (.ilist ser) 1800, false⟩

/-! Feedback creation: UserFeedbackCreateSerializer (serializer.py
lines 61-74) and CreateUserFeedbackView (views.py lines 337-380). -/

/-- Precision validation of the DRF DecimalField with max_digits=2 and
decimal_places=1, mirroring `DecimalField.validate_precision`: from
the decimal tuple it derives the total digit count, the fractional
digit count and the whole digit count, and rejects when total > 2,
fractional > 1, or whole > 2 - 1 = 1. -/
def validate_precision (d : DecimalInput) : Bool :=
  let len := numDigits d.coeff
  let total := if d.scale = 0 then len
    else if d.scale < len then len else d.scale
  let fracs := if d.scale = 0 then 0 else d.scale
  let whole := if d.scale = 0 then len
    else if d.scale < len then len - d.scale else 0
  decide (total ≤ 2) && decide (fracs ≤ 1) && decide (whole ≤ 1)

/-- Quantization of a precision-validated rating to one decimal place
(DRF quantizes the validated value with exponent -1): a validated
value has scale at most one, so only the integral case changes. -/
def quantize1 (d : DecimalInput) : DecimalInput :=
  if d.scale = 0 then ⟨d.neg, d.coeff * 10, 1⟩ else d

/-- Wire input of the feedback endpoint: the declared serializer
fields category, rating, feedback_text. -/
structure FeedbackInput where
  category : String
  rating : DecimalInput
  feedback_text : Option String
deriving DecidableEq, Repr

/-- POST handler of CreateUserFeedbackView (views.py lines 350-374):
IsAuthenticated permission; field validation (the rating's decimal
precision) raises to a 400 via `raise_exception=True`; on success the
record is persisted bound to the caller with a server-assigned
timestamp and the `feedback_analytics_` cache namespace is purged. -/
def createUserFeedbackView_post (db : DB) (c : Cache) (now : Nat)
    (caller : User) (fi : FeedbackInput) : EndpointResult :=
  if !caller.is_authenticated then
    ⟨401, .detail "Authentication credentials were not provided.", db, c⟩
  else if !validate_precision fi.rating then
    ⟨400, .detail "rating precision", db, c⟩
  else
    let fb : Feedback :=
      ⟨caller.id, fi.category, quantize1 fi.rating, fi.feedback_text, now⟩
    ⟨201, .feedbackOut fi.category (quantize1 fi.rating) fi.feedback_text,
      { db with feedbacks := db.feedbacks ++ [fb] },
      c.delete_pattern "feedback_analytics_*"⟩

/-! Concrete fixtures used by counterexamples and witnesses. -/

/-- Feature named Dashboard, as in the spec's end-to-end example. -/
def exFeature : Feature := ⟨"Dashboard", "Main dashboard", "core"⟩

/-- Authenticated non-admin user. -/
def aliceUser : User := ⟨1, "alice", false, true⟩

/-- Authenticated admin user. -/
def adminUser : User := ⟨0, "admin", true, true⟩

/-- Unauthenticated caller. -/
def anonUser : User := ⟨2, "anon", false, false⟩

/-- Store with one user and one feature, no interactions or feedback. -/
def exDb : DB := ⟨[aliceUser], [exFeature], [], []⟩

/-- Authenticated user with no interactions. -/
def bobUser : User := ⟨7, "bob", false, true⟩

/-- Store containing bobUser and no interactions at all. -/
def bobDb : DB := ⟨[bobUser], [exFeature], [], []⟩

/-- Empty cache. -/
def emptyCache : Cache := ⟨[]⟩

/-- Cache holding one entry under the interaction-statistics
namespace. -/
def statsCache : Cache := ⟨[⟨"user_interaction_stats_0", .detail "cached", 3600⟩]⟩

/-- Statistics-cache well-formedness: an entry keyed to hour bucket
`h` never expires before the end of hour `h`.  Entries under a key of
the form `user_interaction_stats_h` are only ever written by the
statistics view at some time inside hour `h` with timeout 3600, so
every reachable cache state satisfies this. -/
def StatsCacheWF (c : Cache) : Prop :=
  ∀ e ∈ c.entries, ∀ h : Nat,
    e.key = "user_interaction_stats_" ++ toString h → (h + 1) * 3600 ≤ e.expiry

/-! Helper lemmas shared by the claim theorems. -/

/-- Glob prefix of the statistics purge pattern. -/
theorem globPrefix_stats :
    globPrefix "user_interaction_stats_*" = "user_interaction_stats_" := by decide

/-- After a prefix purge, no surviving key starts with the purged
prefix. -/
theorem delete_pattern_clears (c : Cache) (pat : String) :
    ∀ e ∈ (c.delete_pattern pat).entries,
      strStartsWith (globPrefix pat) e.key = false := by
  intro e he
  unfold Cache.delete_pattern at he
  have h := List.of_mem_filter he
  simpa using h

/-- For an authenticated user, an item that DRF reports valid was in
fact validated to an `ok` outcome (the returned-not-raised error can
only arise for an unauthenticated caller). -/
theorem valid_eq_ok (db : DB) (u : User) (it : RawItem)
    (hauth : u.is_authenticated = true)
    (h : (runItemValidation db u it).is_valid = true) :
    ∃ a, runItemValidation db u it = ItemResult.ok a := by
  unfold runItemValidation at h ⊢
  cases hp : parseInteractionType it.interaction_type with
  | none =>
    rw [hp] at h
    simp [ItemResult.is_valid] at h
  | some ty =>
    rw [hp] at h
    rw [hauth] at h ⊢
    simp only [Bool.not_true, Bool.false_eq_true, if_false] at h ⊢
    cases hf : featureExists db it.feature_name with
    | false =>
      simp [hf, ItemResult.is_valid] at h
    | true =>
      simp only [Bool.not_true, Bool.false_eq_true, if_false] at h ⊢
      exact ⟨_, rfl⟩

/-- Saving a list of all-ok validation outcomes produces one record
per outcome. -/
theorem length_filterMap_toRecord (u : User) (n : Nat) :
    ∀ l : List ItemResult, (∀ r ∈ l, ∃ a, r = ItemResult.ok a) →
      (l.filterMap (ItemResult.toRecord u n)).length = l.length := by
  intro l
  induction l with
  | nil => intro _; rfl
  | cons r t ih =>
    intro h
    obtain ⟨a, ha⟩ := h r (List.mem_cons_self _ _)
    subst ha
    rw [List.filterMap_cons]
    simp only [ItemResult.toRecord, List.length_cons]
    rw [ih (fun r hr => h r (List.mem_cons_of_mem _ hr))]

/-- An item's error-report entry is present exactly when the item is
invalid. -/
theorem errorReport_isSome_eq (r : ItemResult) :
    r.errorReport.isSome = !r.is_valid := by
  cases r <;> rfl

/-- Reading a freshly set key before its expiry returns the set
value. -/
theorem get_set_fresh (c : Cache) (now : Nat) (k : String) (v : Val)
    (timeout t2 : Nat) (h : t2 < now + timeout) :
    (c.set now k v timeout).get t2 k = some v := by
  unfold Cache.get Cache.set
  simp [List.find?, h]

/-- Behaviour of the statistics view on a truthy cache hit. -/
theorem statsView_hit (db : DB) (c : Cache) (now : Nat) (caller : User) (v : Val)
    (hstaff : caller.is_staff = true)
    (hget : c.get now (interactionStatsKey now) = some v)
    (htr : v.truthy = true) :
    userInteractionStatisticsView_get db c now caller = ⟨200, v, c, true⟩ := by
  simp only [userInteractionStatisticsView_get, hstaff, Bool.not_true,
    Bool.false_eq_true, if_false, hget, htr, if_true]

/-- Behaviour of the statistics view on a cache miss. -/
theorem statsView_miss (db : DB) (c : Cache) (now : Nat) (caller : User)
    (hstaff : caller.is_staff = true)
    (hget : c.get now (interactionStatsKey now) = none) :
    userInteractionStatisticsView_get db c now caller =
      ⟨200, .stats (computeStats db now),
        c.set now (interactionStatsKey now) (.stats (computeStats db now)) 3600,
        false⟩ := by
  simp only [userInteractionStatisticsView_get, hstaff, Bool.not_true,
    Bool.false_eq_true, if_false, hget]

/-- Behaviour of the statistics view on a cached falsy value: the
truthiness test treats it as a miss and the view recomputes. -/
theorem statsView_stale (db : DB) (c : Cache) (now : Nat) (caller : User) (v : Val)
    (hstaff : caller.is_staff = true)
    (hget : c.get now (interactionStatsKey now) = some v)
    (htr : v.truthy = false) :
    userInteractionStatisticsView_get db c now caller =
      ⟨200, .stats (computeStats db now),
        c.set now (interactionStatsKey now) (.stats (computeStats db now)) 3600,
        false⟩ := by
  simp only [userInteractionStatisticsView_get, hstaff, Bool.not_true,
    Bool.false_eq_true, if_false, hget, htr]

/-- Behaviour of the per-user view on a truthy cache hit. -/
theorem byUserView_hit (db : DB) (c : Cache) (now : Nat) (caller : User)
    (uid : Nat) (qt : Option String) (qs qe : Option Nat) (v : Val)
    (hstaff : caller.is_staff = true)
    (hget : c.get now (userInteractionsKey uid qt qs qe) = some v)
    (htr : v.truthy = true) :
    userInteractionByUser_get db c now caller uid qt qs qe = ⟨200, v, c, true⟩ := by
  simp only [userInteractionByUser_get, hstaff, Bool.not_true,
    Bool.false_eq_true, if_false, hget, htr, if_true]

/-- Behaviour of the per-user view on a cache miss. -/
theorem byUserView_miss (db : DB) (c : Cache) (now : Nat) (caller : User)
    (uid : Nat) (qt : Option String) (qs qe : Option Nat)
    (hstaff : caller.is_staff = true)
    (hget : c.get now (userInteractionsKey uid qt qs qe) = none) :
    userInteractionByUser_get db c now caller uid qt qs qe =
      ⟨200, .ilist (userInteractionsQuery db uid qt qs qe),
        c.set now (userInteractionsKey uid qt qs qe)
          (.ilist (userInteractionsQuery db uid qt qs qe)) 1800,
        false⟩ := by
  simp only [userInteractionByUser_get, hstaff, Bool.not_true,
    Bool.false_eq_true, if_false, hget]

/-- Behaviour of the per-user view on a cached falsy value: the
truthiness test treats it as a miss and the view recomputes. -/
theorem byUserView_stale (db : DB) (c : Cache) (now : Nat) (caller : User)
    (uid : Nat) (qt : Option String) (qs qe : Option Nat) (v : Val)
    (hstaff : caller.is_staff = true)
    (hget : c.get now (userInteractionsKey uid qt qs qe) = some v)
    (htr : v.truthy = false) :
    userInteractionByUser_get db c now caller uid qt qs qe =
      ⟨200, .ilist (userInteractionsQuery db uid qt qs qe),
        c.set now (userInteractionsKey uid qt qs qe)
          (.ilist (userInteractionsQuery db uid qt qs qe)) 1800,
        false⟩ := by
  simp only [userInteractionByUser_get, hstaff, Bool.not_true,
    Bool.false_eq_true, if_false, hget, htr]

/-- Behaviour of the bulk endpoint when every item validates. -/
theorem bulk_post_valid (db : DB) (c : Cache) (now : Nat) (caller : User)
    (items : List RawItem)
    (hauth : caller.is_authenticated = true)
    (hall : (items.map (runItemValidation db caller)).all ItemResult.is_valid = true) :
    bulkCreateUserInteractionView_post db c now caller items =
      ⟨201, .msg (toString items.length ++ " interactions created successfully"),
        { db with interactions := db.interactions ++ (items.map (runItemValidation db caller)).filterMap (ItemResult.toRecord caller now) },
        c.delete_pattern "user_interaction_stats_*"⟩ := by
  simp only [bulkCreateUserInteractionView_post, hauth, Bool.not_true,
    Bool.false_eq_true, if_false, hall, if_true]

/-- Behaviour of the bulk endpoint when some item fails validation. -/
theorem bulk_post_invalid (db : DB) (c : Cache) (now : Nat) (caller : User)
    (items : List RawItem)
    (hauth : caller.is_authenticated = true)
    (hall : (items.map (runItemValidation db caller)).all ItemResult.is_valid = false) :
    bulkCreateUserInteractionView_post db c now caller items =
      ⟨400, .bulkErrors ((items.map (runItemValidation db caller)).map
          ItemResult.errorReport), db, c⟩ := by
  simp only [bulkCreateUserInteractionView_post, hauth, Bool.not_true,
    Bool.false_eq_true, if_false, hall]

/-- C1: for every bulk-create payload in which every item is valid,
the endpoint persists exactly one Interaction record per input item,
answers 201 with the message "<N> interactions created successfully"
for N the input length, and afterwards no cache key under the
`user_interaction_stats_` namespace remains. -/
theorem C1_bulk_create_valid_payload (db : DB) (c : Cache) (now : Nat)
    (caller : User) (items : List RawItem)
    (hauth : caller.is_authenticated = true)
    (hvalid : ∀ it ∈ items, (runItemValidation db caller it).is_valid = true) :
    (bulkCreateUserInteractionView_post db c now caller items).status = 201 ∧
    (bulkCreateUserInteractionView_post db c now caller items).body =
      Val.msg (toString items.length ++ " interactions created successfully") ∧
    (bulkCreateUserInteractionView_post db c now caller
        items).db.interactions.length = db.interactions.length + items.length ∧
    ∀ e ∈ (bulkCreateUserInteractionView_post db c now caller items).cache.entries,
      strStartsWith "user_interaction_stats_" e.key = false := by
  have hok : ∀ r ∈ items.map (runItemValidation db caller),
      ∃ a, r = ItemResult.ok a := by
    intro r hr
    rw [List.mem_map] at hr
    obtain ⟨it, hit, hr2⟩ := hr
    subst hr2
    exact valid_eq_ok db caller it hauth (hvalid it hit)
  have hall : (items.map (runItemValidation db caller)).all ItemResult.is_valid
      = true := by
    rw [List.all_eq_true]
    intro r hr
    obtain ⟨a, ha⟩ := hok r hr
    rw [ha]
    rfl
  rw [bulk_post_valid db c now caller items hauth hall]
  refine ⟨rfl, rfl, ?_, ?_⟩
  · show (db.interactions ++ (items.map (runItemValidation db caller)).filterMap
      (ItemResult.toRecord caller now)).length =
      db.interactions.length + items.length
    rw [List.length_append, length_filterMap_toRecord caller now _ hok,
      List.length_map]
  · intro e he
    have h := delete_pattern_clears c "user_interaction_stats_*" e he
    rwa [globPrefix_stats] at h

/-- Witness for C1: a one-item payload from an authenticated user
against a store holding the referenced feature and a cache holding a
statistics key. -/
theorem C1_witness :
    (aliceUser.is_authenticated = true) ∧
    (∀ it ∈ [RawItem.mk "click" "Dashboard" 5 none],
      (runItemValidation exDb aliceUser it).is_valid = true) ∧
    ((bulkCreateUserInteractionView_post exDb statsCache 1000 aliceUser
        [RawItem.mk "click" "Dashboard" 5 none]).status = 201 ∧
     (bulkCreateUserInteractionView_post exDb statsCache 1000 aliceUser
        [RawItem.mk "click" "Dashboard" 5 none]).body =
       Val.msg (toString ([RawItem.mk "click" "Dashboard" 5 none].length) ++
         " interactions created successfully") ∧
     (bulkCreateUserInteractionView_post exDb statsCache 1000 aliceUser
        [RawItem.mk "click" "Dashboard" 5 none]).db.interactions.length =
       exDb.interactions.length + [RawItem.mk "click" "Dashboard" 5 none].length ∧
     ∀ e ∈ (bulkCreateUserInteractionView_post exDb statsCache 1000 aliceUser
        [RawItem.mk "click" "Dashboard" 5 none]).cache.entries,
       strStartsWith "user_interaction_stats_" e.key = false) := by
  refine ⟨by decide, by decide, ?_⟩
  exact C1_bulk_create_valid_payload exDb statsCache 1000 aliceUser
    [RawItem.mk "click" "Dashboard" 5 none] (by decide) (by decide)

/-- C2: for every bulk-create payload containing at least one invalid
item, the endpoint persists nothing, leaves the cache unchanged, and
answers 400 with the per-item error report (an entry per input item,
present exactly for the invalid ones). -/
theorem C2_bulk_create_invalid_payload (db : DB) (c : Cache) (now : Nat)
    (caller : User) (items : List RawItem)
    (hauth : caller.is_authenticated = true)
    (hbad : ∃ it ∈ items, (runItemValidation db caller it).is_valid = false) :
    (bulkCreateUserInteractionView_post db c now caller items).status = 400 ∧
    (bulkCreateUserInteractionView_post db c now caller items).db = db ∧
    (bulkCreateUserInteractionView_post db c now caller items).cache = c ∧
    (bulkCreateUserInteractionView_post db c now caller items).body =
      Val.bulkErrors (items.map
        (fun it => (runItemValidation db caller it).errorReport)) ∧
    ∀ it ∈ items, (runItemValidation db caller it).errorReport.isSome =
      !(runItemValidation db caller it).is_valid := by
  have hall : (items.map (runItemValidation db caller)).all ItemResult.is_valid
      = false := by
    obtain ⟨it, hit, hbad2⟩ := hbad
    cases hcase : (items.map (runItemValidation db caller)).all ItemResult.is_valid with
    | false => rfl
    | true =>
      have h := List.all_eq_true.mp hcase _ (List.mem_map_of_mem _ hit)
      rw [hbad2] at h
      exact Bool.noConfusion h
  rw [bulk_post_invalid db c now caller items hauth hall]
  refine ⟨rfl, rfl, rfl, ?_, ?_⟩
  · rw [List.map_map]
    rfl
  · intro it _
    exact errorReport_isSome_eq (runItemValidation db caller it)

/-- Witness for C2: a payload whose single item names an unknown
interaction kind. -/
theorem C2_witness :
    (aliceUser.is_authenticated = true) ∧
    (∃ it ∈ [RawItem.mk "tap" "Dashboard" 5 none],
      (runItemValidation exDb aliceUser it).is_valid = false) ∧
    ((bulkCreateUserInteractionView_post exDb statsCache 1000 aliceUser
        [RawItem.mk "tap" "Dashboard" 5 none]).status = 400 ∧
     (bulkCreateUserInteractionView_post exDb statsCache 1000 aliceUser
        [RawItem.mk "tap" "Dashboard" 5 none]).db = exDb ∧
     (bulkCreateUserInteractionView_post exDb statsCache 1000 aliceUser
        [RawItem.mk "tap" "Dashboard" 5 none]).cache = statsCache ∧
     (bulkCreateUserInteractionView_post exDb statsCache 1000 aliceUser
        [RawItem.mk "tap" "Dashboard" 5 none]).body =
       Val.bulkErrors ([RawItem.mk "tap" "Dashboard" 5 none].map
         (fun it => (runItemValidation exDb aliceUser it).errorReport)) ∧
     ∀ it ∈ [RawItem.mk "tap" "Dashboard" 5 none],
       (runItemValidation exDb aliceUser it).errorReport.isSome =
         !(runItemValidation exDb aliceUser it).is_valid) := by
  refine ⟨by decide, by decide, ?_⟩
  exact C2_bulk_create_invalid_payload exDb statsCache 1000 aliceUser
    [RawItem.mk "tap" "Dashboard" 5 none] (by decide) (by decide)

/-- C10: the empty bulk-create payload succeeds with 201 and the
message "0 interactions created successfully", persists nothing, and
still purges the interaction-statistics cache namespace. -/
theorem C10_bulk_create_empty_payload (db : DB) (c : Cache) (now : Nat)
    (caller : User)
    (hauth : caller.is_authenticated = true) :
    (bulkCreateUserInteractionView_post db c now caller []).status = 201 ∧
    (bulkCreateUserInteractionView_post db c now caller []).body =
      Val.msg "0 interactions created successfully" ∧
    (bulkCreateUserInteractionView_post db c now caller []).db = db ∧
    ∀ e ∈ (bulkCreateUserInteractionView_post db c now caller []).cache.entries,
      strStartsWith "user_interaction_stats_" e.key = false := by
  rw [bulk_post_valid db c now caller [] hauth rfl]
  refine ⟨rfl, ?_, ?_, ?_⟩
  · show Val.msg (toString (([] : List RawItem).length) ++
      " interactions created successfully") =
      Val.msg "0 interactions created successfully"
    decide
  · show ({ db with interactions := db.interactions ++ (([] : List RawItem).map (runItemValidation db caller)).filterMap (ItemResult.toRecord caller now) } : DB) = db
    cases db with
    | mk us fs is fbs => simp
  · intro e he
    have h := delete_pattern_clears c "user_interaction_stats_*" e he
    rwa [globPrefix_stats] at h

/-- Witness for C10: the empty payload from an authenticated user
against a cache holding a statistics key. -/
theorem C10_witness :
    (aliceUser.is_authenticated = true) ∧
    ((bulkCreateUserInteractionView_post exDb statsCache 1000 aliceUser []).status
        = 201 ∧
     (bulkCreateUserInteractionView_post exDb statsCache 1000 aliceUser []).body =
       Val.msg "0 interactions created successfully" ∧
     (bulkCreateUserInteractionView_post exDb statsCache 1000 aliceUser []).db
        = exDb ∧
     ∀ e ∈ (bulkCreateUserInteractionView_post exDb statsCache 1000 aliceUser
        []).cache.entries,
       strStartsWith "user_interaction_stats_" e.key = false) := by
  refine ⟨by decide, ?_⟩
  exact C10_bulk_create_empty_payload exDb statsCache 1000 aliceUser (by decide)

/-- In a well-formed statistics cache, an entry readable under the
hour key at `t1` is still readable at any later `t2` in the same
clock hour. -/
theorem get_persists (c : Cache) (t1 t2 : Nat) (v : Val)
    (hwf : StatsCacheWF c)
    (_h12 : t1 ≤ t2) (hsame : t1 / 3600 = t2 / 3600)
    (hget : c.get t1 (interactionStatsKey t1) = some v) :
    c.get t2 (interactionStatsKey t1) = some v := by
  unfold Cache.get at hget ⊢
  cases hfind : c.entries.find? (fun e => e.key == interactionStatsKey t1) with
  | none =>
    rw [hfind] at hget
    exact Option.noConfusion hget
  | some e =>
    rw [hfind] at hget
    change (if t1 < e.expiry then some e.val else none) = some v at hget
    show (if t2 < e.expiry then some e.val else none) = some v
    have hmem := List.mem_of_find?_eq_some hfind
    have hp := List.find?_some hfind
    have hkeyeq : e.key = interactionStatsKey t1 := by simpa using hp
    have hexp : (t1 / 3600 + 1) * 3600 ≤ e.expiry :=
      hwf e hmem (t1 / 3600) (by rw [hkeyeq]; rfl)
    by_cases h1lt : t1 < e.expiry
    · rw [if_pos h1lt] at hget
      have ht2 : t2 < e.expiry := by omega
      rw [if_pos ht2]
      exact hget
    · rw [if_neg h1lt] at hget
      exact Option.noConfusion hget

/-- Second statistics call in the same clock hour with no intervening
writes: it answers 200 with the first call's body, is served from the
cache, and leaves the cache untouched. -/
theorem statsView_second_call (db : DB) (c : Cache) (caller : User) (t1 t2 : Nat)
    (hstaff : caller.is_staff = true)
    (hwf : StatsCacheWF c)
    (h12 : t1 ≤ t2) (hsame : t1 / 3600 = t2 / 3600) :
    userInteractionStatisticsView_get db
        (userInteractionStatisticsView_get db c t1 caller).cache t2 caller =
      ⟨200, (userInteractionStatisticsView_get db c t1 caller).body,
        (userInteractionStatisticsView_get db c t1 caller).cache, true⟩ := by
  have hkey : interactionStatsKey t2 = interactionStatsKey t1 := by
    unfold interactionStatsKey
    rw [hsame]
  cases hget : c.get t1 (interactionStatsKey t1) with
  | some v =>
    cases htr : v.truthy with
    | true =>
      have h1 := statsView_hit db c t1 caller v hstaff hget htr
      have hget2 : (userInteractionStatisticsView_get db c t1 caller).cache.get t2
          (interactionStatsKey t2) = some v := by
        rw [h1, hkey]
        exact get_persists c t1 t2 v hwf h12 hsame hget
      have h2 := statsView_hit db
        (userInteractionStatisticsView_get db c t1 caller).cache t2 caller v
        hstaff hget2 htr
      rw [h2, h1]
    | false =>
      have h1 := statsView_stale db c t1 caller v hstaff hget htr
      have hget2 : (userInteractionStatisticsView_get db c t1 caller).cache.get t2
          (interactionStatsKey t2) = some (Val.stats (computeStats db t1)) := by
        rw [h1, hkey]
        exact get_set_fresh c t1 _ _ 3600 t2 (by omega)
      have h2 := statsView_hit db
        (userInteractionStatisticsView_get db c t1 caller).cache t2 caller
        (Val.stats (computeStats db t1)) hstaff hget2 rfl
      rw [h2, h1]
  | none =>
    have h1 := statsView_miss db c t1 caller hstaff hget
    have hget2 : (userInteractionStatisticsView_get db c t1 caller).cache.get t2
        (interactionStatsKey t2) = some (Val.stats (computeStats db t1)) := by
      rw [h1, hkey]
      exact get_set_fresh c t1 _ _ 3600 t2 (by omega)
    have h2 := statsView_hit db
      (userInteractionStatisticsView_get db c t1 caller).cache t2 caller
      (Val.stats (computeStats db t1)) hstaff hget2 rfl
    rw [h2, h1]

/-- C4: two GetInteractionStatistics calls in the same clock hour with
no intervening writes return the same body, the second served from the
cache without recomputation and without touching the cache; a call
whose hour key is not in the cache (as after an hour boundary, when
the key has changed to one not yet written) recomputes. -/
theorem C4_stats_hourly_cache (db : DB) (c c3 : Cache) (caller : User)
    (t1 t2 t3 : Nat)
    (hstaff : caller.is_staff = true)
    (hwf : StatsCacheWF c)
    (h12 : t1 ≤ t2)
    (hsame : t1 / 3600 = t2 / 3600)
    (hfresh : c3.get t3 (interactionStatsKey t3) = none) :
    ((userInteractionStatisticsView_get db
        (userInteractionStatisticsView_get db c t1 caller).cache t2 caller).status
        = 200 ∧
     (userInteractionStatisticsView_get db
        (userInteractionStatisticsView_get db c t1 caller).cache t2 caller).body =
       (userInteractionStatisticsView_get db c t1 caller).body ∧
     (userInteractionStatisticsView_get db
        (userInteractionStatisticsView_get db c t1 caller).cache t2
        caller).fromCache = true ∧
     (userInteractionStatisticsView_get db
        (userInteractionStatisticsView_get db c t1 caller).cache t2 caller).cache =
       (userInteractionStatisticsView_get db c t1 caller).cache) ∧
    ((userInteractionStatisticsView_get db c3 t3 caller).fromCache = false ∧
     (userInteractionStatisticsView_get db c3 t3 caller).body =
       Val.stats (computeStats db t3)) := by
  have h2nd := statsView_second_call db c caller t1 t2 hstaff hwf h12 hsame
  have h3 := statsView_miss db c3 t3 caller hstaff hfresh
  refine ⟨?_, ?_⟩
  · rw [h2nd]
    exact ⟨rfl, rfl, rfl, rfl⟩
  · rw [h3]
    exact ⟨rfl, rfl⟩

/-- Witness for C4: two calls at seconds 0 and 10 of the same hour on
an initially empty cache, and a later call at the next hour against a
cache without that hour's key. -/
theorem C4_witness :
    (adminUser.is_staff = true) ∧
    StatsCacheWF emptyCache ∧
    ((0 : Nat) ≤ 10) ∧
    ((0 : Nat) / 3600 = 10 / 3600) ∧
    ((userInteractionStatisticsView_get exDb
        (userInteractionStatisticsView_get exDb emptyCache 0 adminUser).cache
        10 adminUser).status = 200 ∧
     (userInteractionStatisticsView_get exDb
        (userInteractionStatisticsView_get exDb emptyCache 0 adminUser).cache
        10 adminUser).body =
       (userInteractionStatisticsView_get exDb emptyCache 0 adminUser).body ∧
     (userInteractionStatisticsView_get exDb
        (userInteractionStatisticsView_get exDb emptyCache 0 adminUser).cache
        10 adminUser).fromCache = true ∧
     (userInteractionStatisticsView_get exDb
        (userInteractionStatisticsView_get exDb emptyCache 0 adminUser).cache
        10 adminUser).cache =
       (userInteractionStatisticsView_get exDb emptyCache 0 adminUser).cache) ∧
    ((userInteractionStatisticsView_get exDb emptyCache 7200 adminUser).fromCache
        = false ∧
     (userInteractionStatisticsView_get exDb emptyCache 7200 adminUser).body =
       Val.stats (computeStats exDb 7200)) := by
  refine ⟨by decide, ?_, by decide, by decide, ?_⟩
  · intro e he
    exact absurd he (List.not_mem_nil e)
  · exact C4_stats_hourly_cache exDb emptyCache emptyCache adminUser 0 10 7200
      (by decide) (fun e he => absurd he (List.not_mem_nil e)) (by decide)
      (by decide) (by decide)

/-- Behaviour of the feedback endpoint for an unauthenticated
caller. -/
theorem feedback_post_unauth (db : DB) (c : Cache) (now : Nat) (caller : User)
    (fi : FeedbackInput) (hauth : caller.is_authenticated = false) :
    createUserFeedbackView_post db c now caller fi =
      ⟨401, .detail "Authentication credentials were not provided.", db, c⟩ := by
  simp only [createUserFeedbackView_post, hauth, Bool.not_false, if_true]

/-- Behaviour of the bulk endpoint for an unauthenticated caller. -/
theorem bulk_post_unauth (db : DB) (c : Cache) (now : Nat) (caller : User)
    (items : List RawItem) (hauth : caller.is_authenticated = false) :
    bulkCreateUserInteractionView_post db c now caller items =
      ⟨401, .detail "Authentication credentials were not provided.", db, c⟩ := by
  simp only [bulkCreateUserInteractionView_post, hauth, Bool.not_false, if_true]

/-- C8 counterexample: for an existing user with no interactions, the
first call writes the empty list into the cache (still readable at
the second call's time, within the 30-minute TTL), yet the second
call is not served from the cache — the truthiness test treats the
cached empty list as a miss, contradicting the claim that an empty
result is served from the cache the same way a non-empty one would
be. -/
theorem C8_counterexample_empty_not_served :
    bobDb.users.any (fun u => u.id == 7) = true ∧
    (userInteractionByUser_get bobDb emptyCache 100 adminUser 7 none none
      none).cache.get 200 (userInteractionsKey 7 none none none) =
      some (Val.ilist []) ∧
    (userInteractionByUser_get bobDb
      (userInteractionByUser_get bobDb emptyCache 100 adminUser 7 none none
        none).cache 200 adminUser 7 none none none).fromCache = false := by decide

/-- C8 as amended: an empty per-user result is written to the cache
with the 30-minute TTL and the response is 200 with the empty list,
but a second identical call within the TTL is not served from the
cache — the truthiness-based hit test treats the cached empty list as
a miss, so the view recomputes (returning the same empty body). -/
theorem C8_empty_result_cached_but_recomputed (db : DB) (c : Cache)
    (caller : User) (uid : Nat) (qt : Option String) (qs qe : Option Nat)
    (t1 t2 : Nat)
    (hstaff : caller.is_staff = true)
    (hfresh : c.get t1 (userInteractionsKey uid qt qs qe) = none)
    (hempty : userInteractionsQuery db uid qt qs qe = [])
    (hTTL : t2 < t1 + 1800) :
    (userInteractionByUser_get db c t1 caller uid qt qs qe).status = 200 ∧
    (userInteractionByUser_get db c t1 caller uid qt qs qe).body = Val.ilist [] ∧
    (userInteractionByUser_get db c t1 caller uid qt qs qe).cache.get t2
      (userInteractionsKey uid qt qs qe) = some (Val.ilist []) ∧
    (userInteractionByUser_get db
      (userInteractionByUser_get db c t1 caller uid qt qs qe).cache t2 caller
      uid qt qs qe).fromCache = false ∧
    (userInteractionByUser_get db
      (userInteractionByUser_get db c t1 caller uid qt qs qe).cache t2 caller
      uid qt qs qe).status = 200 ∧
    (userInteractionByUser_get db
      (userInteractionByUser_get db c t1 caller uid qt qs qe).cache t2 caller
      uid qt qs qe).body = Val.ilist [] := by
  have h1 := byUserView_miss db c t1 caller uid qt qs qe hstaff hfresh
  rw [hempty] at h1
  have hget2 : (userInteractionByUser_get db c t1 caller uid qt qs qe).cache.get
      t2 (userInteractionsKey uid qt qs qe) = some (Val.ilist []) := by
    rw [h1]
    exact get_set_fresh c t1 _ _ 1800 t2 hTTL
  have h2 := byUserView_stale db
    (userInteractionByUser_get db c t1 caller uid qt qs qe).cache t2 caller
    uid qt qs qe (Val.ilist []) hstaff hget2 rfl
  rw [hempty] at h2
  exact ⟨by rw [h1], by rw [h1], hget2, by rw [h2], by rw [h2], by rw [h2]⟩

/-- Witness for the amended C8 at the concrete store with one user
and no interactions. -/
theorem C8_witness :
    (adminUser.is_staff = true) ∧
    (emptyCache.get 100 (userInteractionsKey 7 none none none) = none) ∧
    (userInteractionsQuery bobDb 7 none none none = []) ∧
    ((200 : Nat) < 100 + 1800) ∧
    ((userInteractionByUser_get bobDb emptyCache 100 adminUser 7 none none
        none).status = 200 ∧
     (userInteractionByUser_get bobDb emptyCache 100 adminUser 7 none none
        none).body = Val.ilist [] ∧
     (userInteractionByUser_get bobDb emptyCache 100 adminUser 7 none none
        none).cache.get 200 (userInteractionsKey 7 none none none) =
       some (Val.ilist []) ∧
     (userInteractionByUser_get bobDb
        (userInteractionByUser_get bobDb emptyCache 100 adminUser 7 none none
          none).cache 200 adminUser 7 none none none).fromCache = false ∧
     (userInteractionByUser_get bobDb
        (userInteractionByUser_get bobDb emptyCache 100 adminUser 7 none none
          none).cache 200 adminUser 7 none none none).status = 200 ∧
     (userInteractionByUser_get bobDb
        (userInteractionByUser_get bobDb emptyCache 100 adminUser 7 none none
          none).cache 200 adminUser 7 none none none).body = Val.ilist []) := by
  refine ⟨by decide, by decide, by decide, by decide, ?_⟩
  exact C8_empty_result_cached_but_recomputed bobDb emptyCache adminUser 7
    none none none 100 200 (by decide) (by decide) (by decide) (by decide)

/-- C3: the code answers 200 with the empty list for a user id naming
no existing user — the `User.DoesNotExist` handler in the view is dead
code, because the query only filters on the user id and never checks
user existence; the claim's required 404 never happens. -/
theorem C3_unknown_user_gets_200_empty :
    (∀ u ∈ exDb.users, u.id ≠ 42) ∧
    (userInteractionByUser_get exDb emptyCache 0 adminUser 42 none none
      none).status = 200 ∧
    (userInteractionByUser_get exDb emptyCache 0 adminUser 42 none none
      none).body = Val.ilist [] ∧
    ¬(userInteractionByUser_get exDb emptyCache 0 adminUser 42 none none
      none).status = 404 := by decide

/-- C5: the serializer treats an unauthenticated caller's item as
valid — `validate` RETURNS the `ValidationError` object instead of
raising it (serializer.py line 37), so `is_valid()` succeeds — while
the unknown-feature and unknown-kind cases do fail validation as
claimed. -/
theorem C5_unauthenticated_item_counts_valid :
    anonUser.is_authenticated = false ∧
    runItemValidation exDb anonUser ⟨"click", "Dashboard", 5, none⟩ =
      ItemResult.returnedError "User is not authenticated" ∧
    (runItemValidation exDb anonUser ⟨"click", "Dashboard", 5, none⟩).is_valid
      = true ∧
    (runItemValidation exDb aliceUser ⟨"click", "Missing", 5, none⟩).is_valid
      = false ∧
    (runItemValidation exDb aliceUser ⟨"tap", "Dashboard", 5, none⟩).is_valid
      = false := by decide

/-- C6 counterexample: the integral rating 5 — zero fractional
digits — passes the DecimalField precision validation and the
feedback create succeeds, so the accepted domain is not "decimals
with exactly one fractional digit". -/
theorem C6_counterexample_integral_rating_accepted :
    (DecimalInput.mk false 5 0).scale = 0 ∧
    validate_precision (DecimalInput.mk false 5 0) = true ∧
    (createUserFeedbackView_post exDb emptyCache 50 aliceUser
      ⟨"ui", DecimalInput.mk false 5 0, none⟩).status = 201 := by decide

/-- C6 as amended: rating 9.9 is accepted, 10.0 is rejected (not
truncated: the request fails with 400 and persists nothing), every
value with two fractional digits is rejected, and the accepted domain
is decimals with at most one fractional digit fitting two significant
digits. -/
theorem C6_rating_fixed_precision (d : DecimalInput) (h2 : d.scale = 2) :
    validate_precision (DecimalInput.mk false 99 1) = true ∧
    validate_precision (DecimalInput.mk false 100 1) = false ∧
    validate_precision d = false ∧
    (createUserFeedbackView_post exDb emptyCache 50 aliceUser
      ⟨"ui", DecimalInput.mk false 99 1, none⟩).status = 201 ∧
    (createUserFeedbackView_post exDb emptyCache 50 aliceUser
      ⟨"ui", DecimalInput.mk false 100 1, none⟩).status = 400 ∧
    (createUserFeedbackView_post exDb emptyCache 50 aliceUser
      ⟨"ui", DecimalInput.mk false 100 1, none⟩).db = exDb := by
  refine ⟨by decide, by decide, ?_, by decide, by decide, by decide⟩
  unfold validate_precision
  rw [h2]
  simp

/-- Witness for the amended C6 at the two-fractional-digit rating
9.99. -/
theorem C6_witness :
    ((DecimalInput.mk false 999 2).scale = 2) ∧
    (validate_precision (DecimalInput.mk false 99 1) = true ∧
     validate_precision (DecimalInput.mk false 100 1) = false ∧
     validate_precision (DecimalInput.mk false 999 2) = false ∧
     (createUserFeedbackView_post exDb emptyCache 50 aliceUser
       ⟨"ui", DecimalInput.mk false 99 1, none⟩).status = 201 ∧
     (createUserFeedbackView_post exDb emptyCache 50 aliceUser
       ⟨"ui", DecimalInput.mk false 100 1, none⟩).status = 400 ∧
     (createUserFeedbackView_post exDb emptyCache 50 aliceUser
       ⟨"ui", DecimalInput.mk false 100 1, none⟩).db = exDb) := by
  refine ⟨by decide, ?_⟩
  exact C6_rating_fixed_precision (DecimalInput.mk false 999 2) (by decide)

/-- C7: whatever the payload, both write endpoints only ever append
records whose user reference is the authenticated caller's id — no
input field can bind a record to a different user. -/
theorem C7_writes_bound_to_caller (db : DB) (c : Cache) (now : Nat)
    (caller : User) (items : List RawItem) (fi : FeedbackInput) :
    (∃ l, (bulkCreateUserInteractionView_post db c now caller
        items).db.interactions = db.interactions ++ l ∧
      ∀ r ∈ l, r.user_id = caller.id) ∧
    (∃ m, (createUserFeedbackView_post db c now caller fi).db.feedbacks =
        db.feedbacks ++ m ∧ ∀ r ∈ m, r.user_id = caller.id) := by
  constructor
  · cases hauth : caller.is_authenticated with
    | false =>
      rw [bulk_post_unauth db c now caller items hauth]
      exact ⟨[], (List.append_nil _).symm, fun r hr => absurd hr (List.not_mem_nil r)⟩
    | true =>
      cases hall : (items.map (runItemValidation db caller)).all ItemResult.is_valid with
      | false =>
        rw [bulk_post_invalid db c now caller items hauth hall]
        exact ⟨[], (List.append_nil _).symm, fun r hr => absurd hr (List.not_mem_nil r)⟩
      | true =>
        rw [bulk_post_valid db c now caller items hauth hall]
        refine ⟨(items.map (runItemValidation db caller)).filterMap
          (ItemResult.toRecord caller now), rfl, ?_⟩
        intro r hr
        rw [List.mem_filterMap] at hr
        obtain ⟨x, _, hxr⟩ := hr
        cases x with
        | ok a =>
          simp only [ItemResult.toRecord, Option.some.injEq] at hxr
          rw [← hxr]
          rfl
        | fieldError m => exact absurd hxr (by simp [ItemResult.toRecord])
        | raisedError m => exact absurd hxr (by simp [ItemResult.toRecord])
        | returnedError m => exact absurd hxr (by simp [ItemResult.toRecord])
  · cases hauth : caller.is_authenticated with
    | false =>
      rw [feedback_post_unauth db c now caller fi hauth]
      exact ⟨[], (List.append_nil _).symm, fun r hr => absurd hr (List.not_mem_nil r)⟩
    | true =>
      cases hprec : validate_precision fi.rating with
      | false =>
        have h : createUserFeedbackView_post db c now caller fi = ⟨400,
            .detail "rating precision", db, c⟩ := by
          simp only [createUserFeedbackView_post, hauth, hprec, Bool.not_true,
            Bool.not_false, Bool.false_eq_true, if_false, if_true]
        rw [h]
        exact ⟨[], (List.append_nil _).symm, fun r hr => absurd hr (List.not_mem_nil r)⟩
      | true =>
        have h : createUserFeedbackView_post db c now caller fi = ⟨201,
            .feedbackOut fi.category (quantize1 fi.rating) fi.feedback_text,
            { db with feedbacks := db.feedbacks ++
              [⟨caller.id, fi.category, quantize1 fi.rating, fi.feedback_text, now⟩] },
            c.delete_pattern "feedback_analytics_*"⟩ := by
          simp only [createUserFeedbackView_post, hauth, hprec, Bool.not_true,
            Bool.false_eq_true, if_false]
        rw [h]
        refine ⟨[⟨caller.id, fi.category, quantize1 fi.rating, fi.feedback_text,
          now⟩], rfl, ?_⟩
        intro r hr
        rw [List.mem_singleton] at hr
        subst hr
        rfl

/-- Witness for C7 at a concrete mixed payload. -/
theorem C7_witness :
    (∃ l, (bulkCreateUserInteractionView_post exDb emptyCache 1000 aliceUser
        [RawItem.mk "click" "Dashboard" 5 none]).db.interactions =
      exDb.interactions ++ l ∧ ∀ r ∈ l, r.user_id = aliceUser.id) ∧
    (∃ m, (createUserFeedbackView_post exDb emptyCache 1000 aliceUser
        ⟨"ui", DecimalInput.mk false 99 1, none⟩).db.feedbacks =
      exDb.feedbacks ++ m ∧ ∀ r ∈ m, r.user_id = aliceUser.id) :=
  C7_writes_bound_to_caller exDb emptyCache 1000 aliceUser
    [RawItem.mk "click" "Dashboard" 5 none] ⟨"ui", DecimalInput.mk false 99 1, none⟩

/-- C9 counterexample: an otherwise-valid item with negative duration
-5 passes validation, and the bulk endpoint persists the record with
duration -5 — nothing rejects durations below zero. -/
theorem C9_counterexample_negative_duration :
    runItemValidation exDb aliceUser ⟨"click", "Dashboard", -5, none⟩ =
      ItemResult.ok ⟨InteractionType.click, "Dashboard", -5, none⟩ ∧
    (bulkCreateUserInteractionView_post exDb emptyCache 1000 aliceUser
      [⟨"click", "Dashboard", -5, none⟩]).status = 201 ∧
    (bulkCreateUserInteractionView_post exDb emptyCache 1000 aliceUser
      [⟨"click", "Dashboard", -5, none⟩]).db.interactions =
      [⟨1, "Dashboard", InteractionType.click, 1000, -5, none⟩] ∧
    ((-5 : Int) < 0) := by decide

/-- C9 as amended: the serializer performs no check on duration at
all — the validation verdict is independent of the duration value, so
any integer (negative included) is accepted when the rest of the item
is valid. -/
theorem C9_duration_not_validated (db : DB) (u : User) (it : RawItem) (d : Int) :
    (runItemValidation db u { it with duration := d }).is_valid =
      (runItemValidation db u it).is_valid := by
  obtain ⟨w, x, y, z⟩ := it
  show (runItemValidation db u ⟨w, x, d, z⟩).is_valid =
    (runItemValidation db u ⟨w, x, y, z⟩).is_valid
  unfold runItemValidation
  cases parseInteractionType w with
  | none => rfl
  | some ty => cases u.is_authenticated <;> cases featureExists db x <;> rfl

/-- Witness for the amended C9: the verdict at duration -5 equals the
verdict at the original duration 5. -/
theorem C9_witness :
    (runItemValidation exDb aliceUser
      { RawItem.mk "click" "Dashboard" 5 none with duration := -5 }).is_valid =
    (runItemValidation exDb aliceUser
      (RawItem.mk "click" "Dashboard" 5 none)).is_valid :=
  C9_duration_not_validated exDb aliceUser (RawItem.mk "click" "Dashboard" 5 none) (-5)

end SherlockStats
